import Mathlib

/-!
Verification of the Chroma demo client (`client/main.py`): a shallow
embedding of its pure core — configuration file parsing, setting
resolution, port parsing, the seed corpus, the keyword-relevance scorer
and the result evaluator — together with theorems settling the frozen
claims about the program.

Modelling conventions:
* Python strings are Lean `String`s; `str.lower()` is modelled for the
  Basic Latin and Latin-1 ranges (the only characters occurring in the
  program's data) by `pyLower`.
* Python `dict` is modelled as an insertion-ordered association list
  (`List (String × String)`) with CPython assignment semantics
  (`dictInsert` overwrites in place, appends fresh keys) and first-match
  lookup (`dictFind`), which agrees with CPython because keys are unique
  by construction.
* `kw in text` (substring test) is `containsChars` on the character
  lists.
* Fallible code paths (`ids[0]` on an empty list, `int(...)`) are
  modelled with `Option`.
-/

/-- Model of Python `str.lower` at the character level, faithful on the
Basic Latin (`A`–`Z`) and Latin-1 Supplement (`À`–`Þ`, except `×`)
uppercase letters, the only uppercase characters in the program's data. -/
def pyCharLower (c : Char) : Char :=
  if 65 ≤ c.toNat ∧ c.toNat ≤ 90 then Char.ofNat (c.toNat + 32)
  else if 0xC0 ≤ c.toNat ∧ c.toNat ≤ 0xDE ∧ c.toNat ≠ 0xD7 then Char.ofNat (c.toNat + 32)
  else c

/-- Model of Python `str.lower` (`text.lower()` in `keyword_relevance`
and `doc.lower()` in `evaluate_results`). -/
def pyLower (s : String) : String :=
  ⟨s.data.map pyCharLower⟩

/-- Tests whether the first list is an initial segment of the second. -/
def startsWithChars : List Char → List Char → Bool
  | [], _ => true
  | _ :: _, [] => false
  | a :: as, b :: bs => a == b && startsWithChars as bs

/-- Tests whether `kw` occurs as a contiguous sublist of the second
list; the empty `kw` always occurs, as in Python. -/
def containsChars (kw : List Char) : List Char → Bool
  | [] => startsWithChars kw []
  | c :: rest => startsWithChars kw (c :: rest) || containsChars kw rest

/-- Model of Python `kw in text`: substring containment. -/
def pyInStr (kw text : String) : Bool :=
  containsChars kw.data text.data

/-- The hit count of `keyword_relevance`
(`sum(1 for kw in keywords if kw in text_lower)`, line 127). -/
def hits (text : String) (keywords : List String) : Nat :=
  keywords.countP (fun kw => pyInStr kw (pyLower text))

/-- Embeds `keyword_relevance` (main.py lines 123–134): lower-case the
text, count keyword substring hits, then map the hit count through the
fixed if-chain. -/
def keyword_relevance (text : String) (keywords : List String) : Nat :=
  let h := hits text keywords
  if h = 0 then 0
  else if h = 1 then 3
  else if h = 2 then 4
  else 5

/-- The hit-count → score mapping of `keyword_relevance` in isolation
(the if-chain of lines 128–134). -/
def scoreOfHits (h : Nat) : Nat :=
  if h = 0 then 0
  else if h = 1 then 3
  else if h = 2 then 4
  else 5

theorem keyword_relevance_eq_scoreOfHits (t : String) (kws : List String) :
    keyword_relevance t kws = scoreOfHits (hits t kws) := rfl

theorem scoreOfHits_monotone : ∀ h₁ h₂ : Nat, h₁ ≤ h₂ → scoreOfHits h₁ ≤ scoreOfHits h₂ := by
  intro h₁ h₂ hle
  unfold scoreOfHits
  rcases Nat.lt_or_ge h₂ 3 with h3 | h3
  · interval_cases h₂ <;> interval_cases h₁ <;> simp
  · have h₂0 : h₂ ≠ 0 := by omega
    have h₂1 : h₂ ≠ 1 := by omega
    have h₂2 : h₂ ≠ 2 := by omega
    simp only [h₂0, h₂1, h₂2, if_false]
    rcases Nat.lt_or_ge h₁ 3 with h1 | h1
    · interval_cases h₁ <;> simp
    · have h₁0 : h₁ ≠ 0 := by omega
      have h₁1 : h₁ ≠ 1 := by omega
      have h₁2 : h₁ ≠ 2 := by omega
      simp [h₁0, h₁1, h₁2]

/-! ## Python dict model

CPython dicts preserve insertion order; assignment to a present key
overwrites in place, assignment to a fresh key appends. -/

/-- Lookup in the dict model: `d.get(k)` (first — and by construction
only — binding of the key). -/
def dictFind (d : List (String × String)) (k : String) : Option String :=
  (d.find? (fun p => p.1 == k)).map (fun p => p.2)

/-- Lookup with default: `d.get(k, fb)`. -/
def dictGet (d : List (String × String)) (k fb : String) : String :=
  (dictFind d k).getD fb

/-- CPython dict assignment `d[k] = v` (overwrite in place or append). -/
def dictInsert (d : List (String × String)) (k v : String) : List (String × String) :=
  if d.any (fun p => p.1 == k) then
    d.map (fun p => if p.1 == k then (k, v) else p)
  else d ++ [(k, v)]

/-! ## Configuration layer (`load_env_file`, `resolve_setting`, port parsing) -/

/-- The characters stripped by Python `str.strip()` (ASCII whitespace;
the program's data contains no exotic Unicode whitespace). -/
def isPySpace (c : Char) : Bool :=
  c == ' ' || c == '\t' || c == '\n' || c == '\r' || c == '\x0b' || c == '\x0c'

/-- Model of Python `str.strip()`. -/
def pyStrip (s : String) : String :=
  ⟨((s.data.dropWhile isPySpace).reverse.dropWhile isPySpace).reverse⟩

/-- Splits a character list at newline characters (helper for
`pySplitlines`). -/
def splitLinesAux : List Char → List Char → List String
  | acc, [] => [⟨acc.reverse⟩]
  | acc, '\n' :: rest => (⟨acc.reverse⟩ : String) :: splitLinesAux [] rest
  | acc, c :: rest => splitLinesAux (c :: acc) rest

/-- Model of Python `str.splitlines()` for `\n`-separated text (the only
line terminator in the program's data): a trailing newline produces no
trailing empty line, and the empty string has no lines. -/
def pySplitlines (s : String) : List String :=
  if s.data.isEmpty then []
  else
    let parts := splitLinesAux [] s.data
    if s.data.getLast? == some '\n' then parts.dropLast else parts

/-- One iteration of the `load_env_file` loop (main.py lines 33–40):
strip the line; skip it when blank, when it starts with `#`, or when it
has no `=`; otherwise split at the first `=` and store the stripped key
and value. -/
def envFileStep (env_values : List (String × String)) (line : String) :
    List (String × String) :=
  let stripped := pyStrip line
  if stripped.isEmpty || startsWithChars "#".data stripped.data then env_values
  else if ¬ containsChars "=".data stripped.data then env_values
  else
    let key : String := ⟨stripped.data.takeWhile (fun c => c ≠ '=')⟩
    let value : String := ⟨(stripped.data.dropWhile (fun c => c ≠ '=')).drop 1⟩
    dictInsert env_values (pyStrip key) (pyStrip value)

/-- Embeds `load_env_file` (main.py lines 26–41). The argument is the
file's contents, `none` when the file does not exist. -/
def load_env_file (contents : Option String) : List (String × String) :=
  match contents with
  | none => []
  | some text => (pySplitlines text).foldl envFileStep []

/-- Embeds `resolve_setting` (main.py lines 44–47):
`os.getenv(env_key) or env_file_values.get(env_key, fallback)`. The
process environment is passed as the map `env` (`none` = unset); the
Python `or` sends `None` and the empty string to the right operand. -/
def resolve_setting (env : String → Option String)
    (env_key fallback : String)
    (env_file_values : List (String × String)) : String :=
  match env env_key with
  | some v => if v.isEmpty then dictGet env_file_values env_key fallback else v
  | none => dictGet env_file_values env_key fallback

/-- The `DEFAULT_PORT` constant (main.py line 19). -/
def DEFAULT_PORT : Int := 8000

/-- Valid continuation of a Python decimal integer literal body: digits,
with single underscores allowed only between digits. -/
def pyIntDigitsRest : List Char → Bool
  | [] => true
  | '_' :: [] => false
  | '_' :: c :: rest => c.isDigit && pyIntDigitsRest rest
  | c :: rest => c.isDigit && pyIntDigitsRest rest

/-- Valid body of a Python decimal integer: nonempty, starts with a
digit, underscores only between digits. -/
def pyIntDigitsStart : List Char → Bool
  | [] => false
  | c :: rest => c.isDigit && pyIntDigitsRest rest

/-- Numeric value of a valid digit/underscore body. -/
def pyIntValue (l : List Char) : Nat :=
  (l.filter (fun c => c ≠ '_')).foldl (fun acc c => acc * 10 + (c.toNat - 48)) 0

/-- Model of Python `int(s)` for decimal strings: surrounding whitespace
is ignored, an optional single sign precedes the digits, underscores may
separate digits; anything else raises `ValueError`, modelled as `none`. -/
def pyInt (s : String) : Option Int :=
  let t := ((s.data.dropWhile isPySpace).reverse.dropWhile isPySpace).reverse
  match t with
  | '+' :: rest => if pyIntDigitsStart rest then some (pyIntValue rest) else none
  | '-' :: rest => if pyIntDigitsStart rest then some (-(pyIntValue rest : Int)) else none
  | rest => if pyIntDigitsStart rest then some (pyIntValue rest) else none

/-- Embeds the port-parsing step of `run` (main.py lines 174–178): try
to parse the resolved port string; on `ValueError`, print a diagnostic
and fall back to `DEFAULT_PORT`. The boolean records whether the
diagnostic was emitted. -/
def resolvePort (port_str : String) : Int × Bool :=
  match pyInt port_str with
  | some n => (n, false)
  | none => (DEFAULT_PORT, true)

example : pyInt "9000" = some 9000 := by decide
example : pyInt " -42 " = some (-42) := by decide
example : pyInt "4_2" = some 42 := by decide
example : pyInt "abc" = none := by decide
example : pyInt "" = none := by decide
example : pyInt "4__2" = none := by decide
example : load_env_file (some "# comment\n\nFOO=bar\nBADLINE\n KEY = value with spaces ") = [("FOO", "bar"), ("KEY", "value with spaces")] := by decide
example : load_env_file (some "A=B=C") = [("A", "B=C")] := by decide
example : pySplitlines "a\nb\n" = ["a", "b"] := by decide
example : pySplitlines "" = [] := by decide
example : pySplitlines "\n" = [""] := by decide

/-! ## Collection seeder (`ensure_documents`) -/

/-- The fixed seed corpus of `ensure_documents` (main.py lines 63–114):
the list `documents` of `(doc_id, text, metadata)` triples, verbatim. -/
def seedDocuments : List (String × String × List (String × String)) :=
  [ ("historia-01",
     "La caída del Imperio Romano marcó el inicio de la Edad Media y transformó la política europea.",
     [("tema", "historia")]),
    ("ia-01",
     "Los transformers revolucionaron el NLP al permitir el aprendizaje de dependencias largas en textos.",
     [("tema", "ia")]),
    ("ecologia-01",
     "La deforestación afecta la biodiversidad y aumenta las emisiones de gases de efecto invernadero.",
     [("tema", "ecologia")]),
    ("deporte-01",
     "El entrenamiento de resistencia mejora la capacidad aeróbica y la salud cardiovascular de los atletas.",
     [("tema", "deporte")]),
    ("economia-01",
     "La inflación y la política monetaria están estrechamente relacionadas con las expectativas del mercado.",
     [("tema", "economia")]),
    ("medicina-01",
     "Las vacunas de ARNm activan respuestas inmunológicas específicas con tiempos de desarrollo reducidos.",
     [("tema", "medicina")]),
    ("tecnologia-01",
     "La computación en la nube facilita la escalabilidad de aplicaciones y la gestión de datos distribuidos.",
     [("tema", "tecnologia")]),
    ("musica-01",
     "El jazz de los años 50 exploró la improvisación modal e influyó en generaciones posteriores de músicos.",
     [("tema", "musica")]),
    ("literatura-01",
     "El realismo mágico en América Latina mezcló elementos fantásticos con narrativas cotidianas.",
     [("tema", "literatura")]),
    ("ciencia-01",
     "El método científico combina observación, hipótesis, experimentación y análisis para validar teorías.",
     [("tema", "ciencia")]) ]

/-- The `ids` sequence handed to `collection.upsert`
(`[doc_id for doc_id, _, _ in documents]`, main.py line 117). -/
def upsertIds : List String := seedDocuments.map (fun doc => doc.1)

/-- The `documents` sequence handed to `collection.upsert`
(`[text for _, text, _ in documents]`, main.py line 118). -/
def upsertDocuments : List String := seedDocuments.map (fun doc => doc.2.1)

/-- The `metadatas` sequence handed to `collection.upsert`
(`[metadata for _, _, metadata in documents]`, main.py line 119). -/
def upsertMetadatas : List (List (String × String)) :=
  seedDocuments.map (fun doc => doc.2.2)

/-- The topic (`tema`) values of the seed corpus, in order. -/
def seedTopics : List String :=
  seedDocuments.filterMap (fun doc => dictFind doc.2.2 "tema")

/-! ## Result evaluator (`evaluate_results`) -/

/-- The evaluator's closing note: `ExactKeywordMatch` abstracts the
message printed when `related_hits` is nonempty (main.py line 164),
`SemanticOnly` the message of line 166. -/
inductive Note where
  | exactKeywordMatch
  | semanticOnly
deriving DecidableEq

/-- A metadata value as seen by the evaluator: either a mapping
(`isinstance(metadata, dict)` true) or an opaque raw value. -/
inductive MetaVal where
  | dict (entries : List (String × String))
  | raw (value : String)
deriving DecidableEq

/-- A Chroma query response as read by `evaluate_results`: each field is
a list of per-query lists; `none` models an absent key, for which
`results.get(..., [[]])` substitutes `[[]]`. -/
structure QueryResponse where
  ids : Option (List (List String))
  documents : Option (List (List String))
  metadatas : Option (List (List MetaVal))

/-- One rendered result block (main.py lines 154–157): rank (1-based),
id, resolved topic, text, and heuristic score. -/
structure RankedEntry where
  rank : Nat
  docId : String
  topic : String
  text : String
  score : Nat
deriving DecidableEq

/-- The information `evaluate_results` prints, as a structure: header
query, per-rank blocks, the rendered topic-coverage line, and the note. -/
structure Report where
  query : String
  entries : List RankedEntry
  coverage : String
  note : Note
deriving DecidableEq

/-- Python `zip` over three lists: truncates to the shortest. -/
def zip3 {α β γ : Type} : List α → List β → List γ → List (α × β × γ)
  | a :: as, b :: bs, c :: cs => (a, b, c) :: zip3 as bs cs
  | _, _, _ => []

/-- Topic resolution for one entry (main.py line 153):
`metadata.get("tema", "desconocido") if isinstance(metadata, dict) else
metadata`. The source's placeholder string is `"desconocido"`
(Spanish for "unknown"). -/
def resolveTopic (metadata : MetaVal) : String :=
  match metadata with
  | .dict d => dictGet d "tema" "desconocido"
  | .raw v => v

/-- The coverage-topic set (main.py line 159):
`{md.get("tema") for md in metadatas if isinstance(md, dict)}`, a set of
optional strings (`md.get` yields `None` when the key is absent). -/
def coverageTopics (metadatas : List MetaVal) : List (Option String) :=
  (metadatas.filterMap (fun md =>
    match md with
    | .dict d => some (dictFind d "tema")
    | .raw _ => none)).dedup

/-- Insertion into a sorted list of strings (ascending, code-point
lexicographic order, as Python `sorted`). -/
def insertSorted (a : String) : List String → List String
  | [] => [a]
  | b :: bs => if a ≤ b then a :: b :: bs else b :: insertSorted a bs

/-- Ascending sort of a list of strings, modelling Python `sorted`. -/
def sortStrings : List String → List String
  | [] => []
  | a :: as => insertSorted a (sortStrings as)

/-- The rendered coverage line (main.py line 160): join the sorted
truthy topics with a comma; the source renders `"sin datos"` ("no
data") when that join is empty. -/
def renderCoverage (metadatas : List MetaVal) : String :=
  let ts := ((coverageTopics metadatas).filterMap id).filter (fun t => ¬ t.isEmpty)
  let joined := String.intercalate ", " (sortStrings ts)
  if joined.isEmpty then "sin datos" else joined

/-- The `related_hits` list (main.py line 162): the returned documents containing
some keyword as a substring of their lowercased text. -/
def relatedHits (documents keywords : List String) : List String :=
  documents.filter (fun doc => keywords.any (fun kw => pyInStr kw (pyLower doc)))

/-- Embeds `evaluate_results` (main.py lines 137–166) as a pure
function. Indexing `[0]` into an empty outer list raises in Python and
is modelled as `none`; otherwise the report collects exactly what the
function prints. The `results` argument is only read, never written. -/
def evaluate_results (query : String) (results : QueryResponse)
    (keywords : List String) : Option Report :=
  match (results.ids.getD [[]])[0]?, (results.documents.getD [[]])[0]?,
      (results.metadatas.getD [[]])[0]? with
  | some ids, some documents, some metadatas =>
    some
      { query := query
        entries := (zip3 ids documents metadatas).enum.map (fun p =>
          { rank := p.1 + 1
            docId := p.2.1
            topic := resolveTopic p.2.2.2
            text := p.2.2.1
            score := keyword_relevance p.2.2.1 keywords })
        coverage := renderCoverage metadatas
        note := if (relatedHits documents keywords).isEmpty then Note.semanticOnly
                else Note.exactKeywordMatch }
  | _, _, _ => none

/-! ## Fixed query battery data used by the claims -/

/-- The ecology seed document's text (main.py line 76). -/
def ecologyText : String :=
  "La deforestación afecta la biodiversidad y aumenta las emisiones de gases de efecto invernadero."

/-- The first query's keyword set (main.py line 194), as a list. -/
def ecologyKeywords : List String :=
  ["ambiental", "deforestación", "emisiones", "biodiversidad"]

/-- The first query's text (main.py line 193). -/
def ecologyQuery : String := "¿Cómo reducir el impacto ambiental de una ciudad?"

/-- A query response whose single ranked entry is the ecology document. -/
def ecologyResponse : QueryResponse :=
  { ids := some [["ecologia-01"]]
    documents := some [[ecologyText]]
    metadatas := some [[MetaVal.dict [("tema", "ecologia")]]] }

/-! ## Helper lemmas -/

/-- The mapping `scoreOfHits` only produces the four values 0, 3, 4, 5. -/
theorem scoreOfHits_vals (h : Nat) :
    scoreOfHits h = 0 ∨ scoreOfHits h = 3 ∨ scoreOfHits h = 4 ∨ scoreOfHits h = 5 := by
  by_cases h0 : h = 0 <;> by_cases h1 : h = 1 <;> by_cases h2 : h = 2 <;>
    simp [scoreOfHits, h0, h1, h2]

/-- A nonzero hit count scores at least 3. -/
theorem three_le_scoreOfHits (h : Nat) (hne : h ≠ 0) : 3 ≤ scoreOfHits h := by
  by_cases h1 : h = 1 <;> by_cases h2 : h = 2 <;> simp [scoreOfHits, hne, h1, h2]

/-- The empty keyword occurs in every text, as in Python. -/
theorem containsChars_nil (l : List Char) : containsChars [] l = true := by
  cases l <;> simp [containsChars, startsWithChars]

/-! ## Claim theorems: the relevance scorer -/

/-- C1: the relevance score of `keyword_relevance` is determined solely
by the hit count `h` — the number of keywords occurring as substrings of
the lowercased text — with h=0 ↦ 0, h=1 ↦ 3, h=2 ↦ 4, h≥3 ↦ 5; the
hit-count → score mapping is monotonically non-decreasing, and the score
never takes the values 1 or 2. -/
theorem keyword_relevance_hit_mapping (t : String) (kws : List String) :
    keyword_relevance t kws = scoreOfHits (hits t kws)
    ∧ (hits t kws = 0 → keyword_relevance t kws = 0)
    ∧ (hits t kws = 1 → keyword_relevance t kws = 3)
    ∧ (hits t kws = 2 → keyword_relevance t kws = 4)
    ∧ (3 ≤ hits t kws → keyword_relevance t kws = 5)
    ∧ (∀ h₁ h₂ : Nat, h₁ ≤ h₂ → scoreOfHits h₁ ≤ scoreOfHits h₂)
    ∧ keyword_relevance t kws ≠ 1 ∧ keyword_relevance t kws ≠ 2 := by
  refine ⟨rfl, ?_, ?_, ?_, ?_, scoreOfHits_monotone, ?_, ?_⟩
  · intro h0; simp [keyword_relevance, h0]
  · intro h1; simp [keyword_relevance, h1]
  · intro h2; simp [keyword_relevance, h2]
  · intro h3
    have e0 : hits t kws ≠ 0 := by omega
    have e1 : hits t kws ≠ 1 := by omega
    have e2 : hits t kws ≠ 2 := by omega
    simp [keyword_relevance, e0, e1, e2]
  · rcases scoreOfHits_vals (hits t kws) with h | h | h | h <;>
      simp [keyword_relevance_eq_scoreOfHits, h]
  · rcases scoreOfHits_vals (hits t kws) with h | h | h | h <;>
      simp [keyword_relevance_eq_scoreOfHits, h]

/-- Witness for C1 at concrete inputs: one hit scores 3, and the
mapping is monotone at 1 ≤ 2. -/
theorem keyword_relevance_hit_mapping_witness :
    hits "la ia" ["ia"] = 1 ∧ keyword_relevance "la ia" ["ia"] = 3
    ∧ scoreOfHits 1 ≤ scoreOfHits 2 :=
  ⟨by decide, (keyword_relevance_hit_mapping "la ia" ["ia"]).2.2.1 (by decide),
   (keyword_relevance_hit_mapping "la ia" ["ia"]).2.2.2.2.2.1 1 2 (by decide)⟩

/-- C2 counterexample: the scorer lowercases only the text, not the
keywords, so changing the case of a keyword does change the score — the
claim's own example instance fails on the code. -/
theorem keyword_case_counterexample :
    keyword_relevance "The IA system" ["ia"] = 3
    ∧ keyword_relevance "the ia system" ["IA"] = 0
    ∧ ¬(keyword_relevance "The IA system" ["ia"]
        = keyword_relevance "the ia system" ["IA"]) := by decide

/-- C2 (amended): keyword matching lowercases only the text, so the
score is invariant under case changes of the text (it depends on the
text only through its lowercase image), and in particular
score("The IA system", ["ia"]) = score("the ia system", ["ia"]); but
changing the case of a keyword can change the score. -/
theorem keyword_relevance_text_case_invariant :
    (∀ (t₁ t₂ : String) (kws : List String), pyLower t₁ = pyLower t₂ →
        keyword_relevance t₁ kws = keyword_relevance t₂ kws)
    ∧ keyword_relevance "The IA system" ["ia"]
        = keyword_relevance "the ia system" ["ia"] := by
  constructor
  · intro t₁ t₂ kws h
    unfold keyword_relevance hits
    rw [h]
  · decide

/-- Witness for C2 (amended) at concrete inputs: a pure case change of
the text leaves the score unchanged. -/
theorem keyword_relevance_text_case_invariant_witness :
    keyword_relevance "The IA SYSTEM" ["ia"]
      = keyword_relevance "the ia system" ["ia"] :=
  keyword_relevance_text_case_invariant.1 "The IA SYSTEM" "the ia system" ["ia"] (by decide)

/-- C10: a keyword set containing the empty string always registers at
least one hit (Python substring containment is reflexive on the empty
string), so the score is at least 3 and never 0. -/
theorem empty_keyword_scores_at_least_three (kws : List String) (t : String)
    (hmem : "" ∈ kws) :
    3 ≤ keyword_relevance t kws ∧ keyword_relevance t kws ≠ 0 := by
  have hpos : 0 < hits t kws := by
    apply List.countP_pos_iff.mpr
    refine ⟨"", hmem, ?_⟩
    simp [pyInStr, containsChars_nil]
  have h3 : 3 ≤ scoreOfHits (hits t kws) := three_le_scoreOfHits _ (by omega)
  rw [keyword_relevance_eq_scoreOfHits]
  omega

/-- Witness for C10 at a concrete input: the singleton set of the empty
keyword scores 3 on an arbitrary text. -/
theorem empty_keyword_scores_at_least_three_witness :
    ("" ∈ [""]) ∧ 3 ≤ keyword_relevance "abc" [""] :=
  ⟨by decide, (empty_keyword_scores_at_least_three [""] "abc" (by decide)).1⟩

/-! ## Claim theorems: the end-to-end ecology scenario -/

/-- C3 counterexample: the ecology document's text contains three of the
four keywords — `deforestación`, `emisiones` and also `biodiversidad` —
so its score is 5, not the claimed 4. -/
theorem ecology_score_not_four :
    hits ecologyText ecologyKeywords = 3
    ∧ ¬(keyword_relevance ecologyText ecologyKeywords = 4) := by decide

/-- C3 (amended): the ecology document registers 3 hits
(`deforestación`, `emisiones`, `biodiversidad`), hence score 5, and any
result set containing it is annotated with note = ExactKeywordMatch. -/
theorem ecology_score_and_note :
    hits ecologyText ecologyKeywords = 3
    ∧ keyword_relevance ecologyText ecologyKeywords = 5
    ∧ (evaluate_results ecologyQuery ecologyResponse ecologyKeywords).map Report.note
        = some Note.exactKeywordMatch
    ∧ (∀ (q : String) (ids docs : List String) (mds : List MetaVal),
        ecologyText ∈ docs →
        (evaluate_results q ⟨some [ids], some [docs], some [mds]⟩ ecologyKeywords).map
            Report.note
          = some Note.exactKeywordMatch) := by
  refine ⟨by decide, by decide, by decide, ?_⟩
  intro q ids docs mds hmem
  have hmemf : ecologyText ∈ relatedHits docs ecologyKeywords :=
    List.mem_filter.mpr ⟨hmem, by decide⟩
  have hne : (relatedHits docs ecologyKeywords).isEmpty = false := by
    rcases hrel : relatedHits docs ecologyKeywords with _ | ⟨a, l⟩
    · rw [hrel] at hmemf; cases hmemf
    · rfl
  simp [evaluate_results, hne]

/-- Witness for C3 (amended) at a concrete input: the singleton result
set holding the ecology document is annotated ExactKeywordMatch. -/
theorem ecology_score_and_note_witness :
    (ecologyText ∈ [ecologyText])
    ∧ (evaluate_results ecologyQuery
          ⟨some [["ecologia-01"]], some [[ecologyText]],
           some [[MetaVal.dict [("tema", "ecologia")]]]⟩ ecologyKeywords).map
        Report.note = some Note.exactKeywordMatch :=
  ⟨by decide,
   ecology_score_and_note.2.2.2 ecologyQuery ["ecologia-01"] [ecologyText]
     [MetaVal.dict [("tema", "ecologia")]] (by decide)⟩

/-! ## Claim theorems: configuration -/

/-- A process environment with `CHROMA_PORT=9000` and nothing else. -/
def envWithPort : String → Option String :=
  fun k => if k == "CHROMA_PORT" then some "9000" else none

/-- A process environment with no variables set. -/
def envUnset : String → Option String := fun _ => none

/-- A parsed env file containing only `CHROMA_PORT=7000`. -/
def fileWithPort : List (String × String) := [("CHROMA_PORT", "7000")]

/-- C4: `resolve_setting` gives a set, non-empty environment variable
precedence over the file mapping, which beats the default; it is total
(never raises), and absence at every level yields the default; at the
spec's concrete example, env 9000 / file 7000 / default 8000 resolve to
9000, 7000 and 8000 respectively. -/
theorem resolve_setting_precedence :
    (∀ (env : String → Option String) (key fb : String)
        (fv : List (String × String)) (v : String),
        env key = some v → v.isEmpty = false → resolve_setting env key fb fv = v)
    ∧ (∀ (env : String → Option String) (key fb : String)
        (fv : List (String × String)),
        (env key = none ∨ env key = some "") →
        resolve_setting env key fb fv = dictGet fv key fb)
    ∧ (∀ (fv : List (String × String)) (key fb v : String),
        dictFind fv key = some v → dictGet fv key fb = v)
    ∧ (∀ (env : String → Option String) (key fb : String)
        (fv : List (String × String)),
        env key = none → dictFind fv key = none →
        resolve_setting env key fb fv = fb)
    ∧ resolve_setting envWithPort "CHROMA_PORT" "8000" fileWithPort = "9000"
    ∧ resolve_setting envUnset "CHROMA_PORT" "8000" fileWithPort = "7000"
    ∧ resolve_setting envUnset "CHROMA_PORT" "8000" [] = "8000" := by
  refine ⟨?_, ?_, ?_, ?_, by decide, by decide, by decide⟩
  · intro env key fb fv v hv hne
    simp [resolve_setting, hv, hne]
  · intro env key fb fv h
    have he : ("" : String).isEmpty = true := rfl
    rcases h with h | h <;> simp [resolve_setting, h, he]
  · intro fv key fb v h
    simp [dictGet, h]
  · intro env key fb fv h1 h2
    simp [resolve_setting, h1, dictGet, h2]

/-- Witness for C4 at the spec's example: the env value 9000 wins, and
with everything absent the default 8000 is returned. -/
theorem resolve_setting_precedence_witness :
    envWithPort "CHROMA_PORT" = some "9000"
    ∧ ("9000" : String).isEmpty = false
    ∧ resolve_setting envWithPort "CHROMA_PORT" "8000" fileWithPort = "9000"
    ∧ envUnset "CHROMA_PORT" = none
    ∧ dictFind [] "CHROMA_PORT" = none
    ∧ resolve_setting envUnset "CHROMA_PORT" "8000" [] = "8000" :=
  ⟨by decide, by decide,
   resolve_setting_precedence.1 envWithPort "CHROMA_PORT" "8000" fileWithPort "9000"
     (by decide) (by decide),
   by decide, by decide,
   resolve_setting_precedence.2.2.2.1 envUnset "CHROMA_PORT" "8000" []
     (by decide) (by decide)⟩

/-- C5: a missing config file yields the empty mapping; each line is
stripped; blank lines, `#`-comment lines and lines without `=` are
skipped; the rest are split at the first `=` with key and value
stripped; the spec's five-line example parses to exactly
FOO ↦ bar, KEY ↦ "value with spaces", and a second example shows the
split happens at the first `=`. -/
theorem load_env_file_parsing :
    load_env_file none = []
    ∧ (∀ (acc : List (String × String)) (line : String),
        (pyStrip line).isEmpty = true → envFileStep acc line = acc)
    ∧ (∀ (acc : List (String × String)) (line : String),
        startsWithChars "#".data (pyStrip line).data = true → envFileStep acc line = acc)
    ∧ (∀ (acc : List (String × String)) (line : String),
        containsChars "=".data (pyStrip line).data = false → envFileStep acc line = acc)
    ∧ (∀ (acc : List (String × String)) (line : String),
        (pyStrip line).isEmpty = false →
        startsWithChars "#".data (pyStrip line).data = false →
        containsChars "=".data (pyStrip line).data = true →
        envFileStep acc line =
          dictInsert acc
            (pyStrip ⟨(pyStrip line).data.takeWhile (fun c => c ≠ '=')⟩)
            (pyStrip ⟨((pyStrip line).data.dropWhile (fun c => c ≠ '=')).drop 1⟩))
    ∧ load_env_file (some "# comment\n\nFOO=bar\nBADLINE\n KEY = value with spaces ")
        = [("FOO", "bar"), ("KEY", "value with spaces")]
    ∧ load_env_file (some "A=B=C") = [("A", "B=C")] := by
  refine ⟨rfl, ?_, ?_, ?_, ?_, by decide, by decide⟩
  · intro acc line h
    simp [envFileStep, h]
  · intro acc line h
    simp [envFileStep, h]
  · intro acc line h
    unfold envFileStep
    by_cases h1 : (pyStrip line).isEmpty || startsWithChars "#".data (pyStrip line).data
    · simp [h1]
    · simp [h1, h]
  · intro acc line h1 h2 h3
    simp [envFileStep, h1, h2, h3]

/-- Witness for C5 at concrete lines: a comment line and an `=`-free
line leave the accumulated mapping unchanged. -/
theorem load_env_file_parsing_witness :
    startsWithChars "#".data (pyStrip "# comment").data = true
    ∧ envFileStep [("X", "y")] "# comment" = [("X", "y")]
    ∧ containsChars "=".data (pyStrip "BADLINE").data = false
    ∧ envFileStep [("X", "y")] "BADLINE" = [("X", "y")] :=
  ⟨by decide, load_env_file_parsing.2.2.1 [("X", "y")] "# comment" (by decide),
   by decide, load_env_file_parsing.2.2.2.1 [("X", "y")] "BADLINE" (by decide)⟩

/-- C6: when the resolved port string parses as an integer, the parsed
value is used unchanged and no diagnostic is emitted; when it does not
parse, the run substitutes the documented default port 8000 and emits a
diagnostic instead of aborting (the embedding is total). -/
theorem resolvePort_fallback (ps : String) :
    (∀ n : Int, pyInt ps = some n → resolvePort ps = (n, false))
    ∧ (pyInt ps = none → resolvePort ps = (DEFAULT_PORT, true))
    ∧ DEFAULT_PORT = 8000 := by
  refine ⟨?_, ?_, rfl⟩
  · intro n h
    simp [resolvePort, h]
  · intro h
    simp [resolvePort, h]

/-- Witness for C6 at concrete inputs: "9000" parses and is used
unchanged; "abc" fails and falls back to 8000 with a diagnostic. -/
theorem resolvePort_fallback_witness :
    pyInt "9000" = some 9000 ∧ resolvePort "9000" = (9000, false)
    ∧ pyInt "abc" = none ∧ resolvePort "abc" = (DEFAULT_PORT, true) :=
  ⟨by decide, (resolvePort_fallback "9000").1 9000 (by decide),
   by decide, (resolvePort_fallback "abc").2.1 (by decide)⟩

/-! ## Claim theorems: the seeder -/

/-- C7: the seed corpus has exactly 10 records with pairwise-distinct
ids spanning 10 pairwise-distinct topic values, and the three sequences
handed to `upsert` are positionally correlated projections of the same
record list: at every index they come from the same source record. -/
theorem ensure_documents_corpus :
    seedDocuments.length = 10
    ∧ upsertIds.Nodup
    ∧ seedTopics.length = 10
    ∧ seedTopics.Nodup
    ∧ (∀ i : Nat, upsertIds[i]? = (seedDocuments[i]?).map (fun d => d.1))
    ∧ (∀ i : Nat, upsertDocuments[i]? = (seedDocuments[i]?).map (fun d => d.2.1))
    ∧ (∀ i : Nat, upsertMetadatas[i]? = (seedDocuments[i]?).map (fun d => d.2.2)) := by
  refine ⟨by decide, by decide, by decide, by decide, ?_, ?_, ?_⟩
  · intro i; simp [upsertIds, List.getElem?_map]
  · intro i; simp [upsertDocuments, List.getElem?_map]
  · intro i; simp [upsertMetadatas, List.getElem?_map]

/-! ## Claim theorems: the evaluator -/

/-- Mapping over the values of an enumerated list ignores the indices. -/
theorem enum_map_snd_comp {α β : Type} (l : List α) (g : α → β) :
    l.enum.map (fun p => g p.2) = l.map g := by
  have h1 : (fun p : Nat × α => g p.2) = g ∘ Prod.snd := rfl
  rw [h1, ← List.map_map, List.enum_map_snd]

/-- C8: the evaluator resolves each entry's topic by reporting a
non-mapping metadata value as-is, and for mappings looking up the topic
key (`tema`); an absent key yields the source's placeholder
`"desconocido"` (rendered "unknown" in the spec); the entries of the
produced report carry exactly these resolved topics. -/
theorem evaluate_topic_resolution :
    (∀ v : String, resolveTopic (MetaVal.raw v) = v)
    ∧ (∀ (d : List (String × String)) (t : String),
        dictFind d "tema" = some t → resolveTopic (MetaVal.dict d) = t)
    ∧ (∀ d : List (String × String),
        dictFind d "tema" = none → resolveTopic (MetaVal.dict d) = "desconocido")
    ∧ (∀ (q : String) (ids docs : List String) (mds : List MetaVal) (kws : List String),
        (evaluate_results q ⟨some [ids], some [docs], some [mds]⟩ kws).map
            (fun r => r.entries.map (fun e => e.topic))
          = some ((zip3 ids docs mds).map (fun e => resolveTopic e.2.2))) := by
  refine ⟨fun v => rfl, ?_, ?_, ?_⟩
  · intro d t h
    simp [resolveTopic, dictGet, h]
  · intro d h
    simp [resolveTopic, dictGet, h]
  · intro q ids docs mds kws
    simp only [evaluate_results, Option.getD_some, List.getElem?_cons_zero, Option.map_some',
      Option.some.injEq, List.map_map]
    exact enum_map_snd_comp (zip3 ids docs mds) (fun e => resolveTopic e.2.2)

/-- Witness for C8 at concrete metadata values: a present `tema` key is
reported, an absent one yields the placeholder. -/
theorem evaluate_topic_resolution_witness :
    dictFind [("tema", "ecologia")] "tema" = some "ecologia"
    ∧ resolveTopic (MetaVal.dict [("tema", "ecologia")]) = "ecologia"
    ∧ dictFind [("x", "y")] "tema" = none
    ∧ resolveTopic (MetaVal.dict [("x", "y")]) = "desconocido" :=
  ⟨by decide, evaluate_topic_resolution.2.1 [("tema", "ecologia")] "ecologia" (by decide),
   by decide, evaluate_topic_resolution.2.2.1 [("x", "y")] (by decide)⟩

/-- The query response of a query that returned no ranked entries. -/
def emptyResponse : QueryResponse :=
  { ids := some [[]], documents := some [[]], metadatas := some [[]] }

/-- C9: evaluating a response with no ranked entries (also with every
key absent) raises nothing and produces the well-formed empty report:
no entries, coverage rendered as the source's `"sin datos"` ("no data")
placeholder and note = SemanticOnly. The embedding is a pure function of
the read-only `results` argument, which the source only reads. -/
theorem evaluate_empty_results (q : String) (kws : List String) :
    evaluate_results q emptyResponse kws
      = some { query := q, entries := [], coverage := "sin datos",
               note := Note.semanticOnly }
    ∧ evaluate_results q ⟨none, none, none⟩ kws
      = some { query := q, entries := [], coverage := "sin datos",
               note := Note.semanticOnly } := by
  constructor <;> rfl
